import Mathlib

/-!
# Verification of the updater orchestrator (`updater/updater.cpp`)

Shallow embedding of `Updater::RunUpdate`, `Updater::UiPrint` and
`Updater::ParseAndReportErrorCode` from `src/updater/updater.cpp`.

Conventions of the embedding:
* C strings become Lean `String`/`List Char`; machine `int` becomes `Int`
  (the values involved are small; overflow never occurs on the inputs
  considered).
* `android::base::Split(s, "\n")` becomes `splitLines s.data` (splitting on
  the delimiter, keeping empty tokens, so `"a\nb\n"` yields three tokens).
* `sscanf(line, "E%d: ", &v)` becomes `sscanfE line`: the literal `E` must
  match, then the `%d` conversion (optional C whitespace, optional sign, at
  least one decimal digit).  `sscanf` returns the number of *assigned*
  conversions, so the call returns 1 as soon as `%d` is assigned — whether
  or not the trailing `": "` of the format subsequently matches.
* `fprintf(cmd_pipe_, ...)` calls are modelled as the ordered list of
  newline-terminated lines written to the command pipe; `LOG(...)` lines go
  to the local diagnostic log, not to the pipe, and are not modelled.
* `ParseString` / `Evaluate` belong to the external evaluation engine; they
  are parameters of `runUpdate` (the parse outcome as two integers, the
  evaluation as an oracle `State → Bool × String × State`).
-/

/-- Modelled from the spec: `ErrorCode.None = 0` (`error_code.h` is outside
`src/`; the spec fixes `None = 0`). -/
def kNoError : Int := 0

/-- Modelled from the spec: the generic "script execution failed" error code
(`error_code.h` is outside `src/`; the spec fixes only that it is a member of
a closed enumeration distinct from `None`).  A representative nonzero value
is used; no claim depends on the particular value. -/
def kScriptExecutionFailure : Int := 25

/-- Modelled from the spec: `CauseCode` "none" value, 0 per the data model
of the spec (`causeCode: int (0 = none)`). -/
def kNoCause : Int := 0

/-- Modelled from the spec: the "patch application failed" retry-eligible
cause (`error_code.h` is outside `src/`).  Representative nonzero value. -/
def kPatchApplicationFailure : Int := 114

/-- Modelled from the spec: the "I/O error (EIO) during update"
retry-eligible cause (`error_code.h` is outside `src/`).  Representative
nonzero value. -/
def kEioFailure : Int := 112

/-- C `isspace` on the characters `%d` skips. -/
def isCSpace (c : Char) : Bool :=
  c == ' ' || c == '\t' || c == '\n' || c == '\r' || c == '\x0b' || c == '\x0c'

/-- The digit string consumed by `%d` after sign handling: at least one
decimal digit; its numeric value. -/
def scanUnsigned (cs : List Char) : Option Nat :=
  let ds := cs.takeWhile Char.isDigit
  if ds.isEmpty then none
  else some (ds.foldl (fun n c => 10 * n + (c.toNat - 48)) 0)

/-- The `%d` conversion of `sscanf`: skip C whitespace, optional sign, at
least one decimal digit.  `none` when the conversion fails (no assignment
happens in that case). -/
def scanInt (cs : List Char) : Option Int :=
  let cs := cs.dropWhile isCSpace
  match cs with
  | '-' :: rest => (scanUnsigned rest).map (fun n => -(n : Int))
  | '+' :: rest => (scanUnsigned rest).map (fun n => (n : Int))
  | _ => (scanUnsigned cs).map (fun n => (n : Int))

/-- `sscanf(line, "E%d: ", &v) == 1`, together with the assigned value:
the literal `E` must match the first character, then `%d` must be assigned.
The trailing `": "` of the format does not influence the return value, since
`%d` is the only conversion.  Also covers the guard
`!line.empty() && line[0] == 'E'` (an empty or non-`E` line makes no
attempt, which is indistinguishable from a failed attempt for the error
code). -/
def sscanfE : List Char → Option Int
  | 'E' :: rest => scanInt rest
  | _ => none

/-- One iteration of the error-code part of the loop in
`ParseAndReportErrorCode`: overwrite `state->error_code` when the scan
assigns a value, keep it otherwise (a failed attempt only logs a
warning). -/
def stepErrorCode (code : Int) (line : List Char) : Int :=
  match sscanfE line with
  | some v => v
  | none => code

/-- `android::base::Split(s, "\n")`: split on every newline, keeping empty
tokens ("line1\nline2\n" yields "line1", "line2" and ""). -/
def splitLines : List Char → List (List Char)
  | [] => [[]]
  | c :: rest =>
    if c = '\n' then [] :: splitLines rest
    else
      match splitLines rest with
      | [] => [[c]]
      | l :: ls => (c :: l) :: ls

/-- The fields of the edify `State` that `updater.cpp` reads and writes
(`is_retry`, `errmsg`, `error_code`, `cause_code`); the `ExecutionState` of
the spec. -/
structure State where
  is_retry : Bool
  errmsg : String
  error_code : Int
  cause_code : Int
deriving DecidableEq, Repr

/-- The cause-code tail of `ParseAndReportErrorCode` (lines 163–172): a
`log cause:` line when a cause is present, followed by `retry_update` for
the two retry-eligible causes. -/
def causeLines (cause_code : Int) : List String :=
  if cause_code ≠ kNoCause then
    ("log cause: " ++ toString cause_code) ::
      (if cause_code = kPatchApplicationFailure then ["retry_update"]
       else if cause_code = kEioFailure then ["retry_update"]
       else [])
  else []

/-- The `for (line : lines)` loop of `ParseAndReportErrorCode` (lines
144–153): per line, try to scan an embedded error code, then forward the
line — empty or not — as a `ui_print` line.  `acc` is the list of pipe
lines written so far. -/
def reportLoop : List (List Char) → List String → Int → List String × Int
  | [], acc, code => (acc, code)
  | line :: rest, acc, code =>
    reportLoop rest (acc ++ ["ui_print " ++ String.mk line]) (stepErrorCode code line)

/-- `Updater::ParseAndReportErrorCode` (lines 136–173).  Returns the ordered
list of lines written to the command pipe and the final
`state->error_code`. -/
def parseAndReportErrorCode (s : State) : List String × Int :=
  let (ui, code) :=
    if s.errmsg = "" then
      (["ui_print script aborted (no error message)"], s.error_code)
    else
      reportLoop (splitLines s.errmsg.data) [] s.error_code
  let code := if code = kNoError then kScriptExecutionFailure else code
  (ui ++ ("log error: " ++ toString code) :: causeLines s.cause_code, code)

/-- The loop of `Updater::UiPrint` (lines 123–128): split, skip empty
segments, forward the rest as `ui_print` lines. -/
def uiPrintLoop : List (List Char) → List String
  | [] => []
  | line :: rest =>
    (if line = [] then [] else ["ui_print " ++ String.mk line]) ++ uiPrintLoop rest

/-- `Updater::UiPrint` (lines 120–134): the lines written to the command
pipe (the duplicate `LOG(INFO)` goes to the diagnostic log only). -/
def uiPrint (message : String) : List String :=
  uiPrintLoop (splitLines message.data)

/-- Modelled from the spec: the fresh `State` of one attempt ("created fresh
per attempt, seeded with the retry flag"; the `State` constructor is in the
external engine).  `state.is_retry = is_retry_` is line 97 of the source. -/
def initState (is_retry : Bool) : State :=
  { is_retry := is_retry, errmsg := "", error_code := kNoError, cause_code := kNoCause }

/-- Outcome of `Updater::RunUpdate`: the boolean return value, the ordered
command-pipe lines, and whether `Evaluate` was invoked. -/
structure RunResult where
  ok : Bool
  pipeLines : List String
  evalInvoked : Bool
deriving DecidableEq, Repr

/-- `Updater::RunUpdate` (lines 85–111), parameterised by the outcome of the
external `ParseString` (`error`, `errorCount`) and by the external
`Evaluate` as an oracle from the seeded state to
`(status, result, mutated state)`. -/
def runUpdate (error errorCount : Int) (eval : State → Bool × String × State)
    (is_retry : Bool) : RunResult :=
  if error ≠ 0 ∨ errorCount > 0 then
    { ok := false, pipeLines := [], evalInvoked := false }
  else
    match eval (initState is_retry) with
    | (status, result, st) =>
      if status then
        { ok := true
          pipeLines :=
            ("ui_print script succeeded: result was [" ++ result ++ "]") ::
              (if result = "" ∧ st.cause_code ≠ kNoCause then
                ["log cause: " ++ toString st.cause_code]
              else [])
          evalInvoked := true }
      else
        { ok := false, pipeLines := (parseAndReportErrorCode st).1, evalInvoked := true }

/-- Spec-side definition (for refinement comparison only, from the words of the
words, not from the source): a line matching the full marker pattern
`E<digits>:` — the literal `E`, then one or more decimal digits, then a
colon — and the value of those digits. -/
def specMarkerValue : List Char → Option Nat
  | 'E' :: rest =>
    let ds := rest.takeWhile Char.isDigit
    if ds.isEmpty then none
    else if (rest.drop ds.length).headD ' ' = ':' then
      some (ds.foldl (fun n c => 10 * n + (c.toNat - 48)) 0)
    else none
  | _ => none

/-- Spec-side definition (for refinement comparison only, from the words of the
words): trimming, i.e. removing leading and trailing whitespace. -/
def specTrim (s : String) : String :=
  String.mk (((s.data.dropWhile isCSpace).reverse.dropWhile isCSpace).reverse)

/-- The value assigned by the scan on the last line on which the scan
succeeds, if any. -/
def lastScan (lines : List (List Char)) : Option Int :=
  lines.foldl
    (fun acc l =>
      match sscanfE l with
      | some v => some v
      | none => acc)
    none

/-- One step of `lastScan`. -/
def scanUpd (acc : Option Int) (l : List Char) : Option Int :=
  match sscanfE l with
  | some v => some v
  | none => acc

/-- The error code accumulated by the line loop (before the generic
fallback). -/
def preCode (s : State) : Int :=
  if s.errmsg = "" then s.error_code
  else (splitLines s.errmsg.data).foldl stepErrorCode s.error_code

/-- The error code finally reported on the `log error:` line (after the
generic fallback). -/
def reportedCode (s : State) : Int :=
  if preCode s = kNoError then kScriptExecutionFailure else preCode s

/-- The `ui_print` lines of a failure report: the single generic line for an
empty message, otherwise one line per split segment. -/
def uiSection (s : State) : List String :=
  if s.errmsg = "" then ["ui_print script aborted (no error message)"]
  else (splitLines s.errmsg.data).map (fun l => "ui_print " ++ String.mk l)

/-! ## Helper lemmas: string disagreement at an index -/

lemma data_getElem_append (p t : String) (i : Nat) (c : Char)
    (h : p.data[i]? = some c) : (p ++ t).data[i]? = some c := by
  have hl : i < p.data.length := by
    rcases List.getElem?_eq_some.mp h with ⟨hlt, _⟩
    exact hlt
  rw [String.data_append, List.getElem?_append_left hl]
  exact h

lemma ne_of_data_getElem (a b : String) (i : Nat) (c d : Char)
    (ha : a.data[i]? = some c) (hb : b.data[i]? = some d) (hcd : c ≠ d) :
    a ≠ b := by
  intro h
  rw [h, hb] at ha
  exact hcd (Option.some.inj ha).symm

lemma ui_ne_retry (x : String) : "ui_print " ++ x ≠ "retry_update" :=
  ne_of_data_getElem _ _ 0 'u' 'r'
    (data_getElem_append "ui_print " x 0 'u' (by decide)) (by decide) (by decide)

lemma logError_ne_retry (t : String) : "log error: " ++ t ≠ "retry_update" :=
  ne_of_data_getElem _ _ 0 'l' 'r'
    (data_getElem_append "log error: " t 0 'l' (by decide)) (by decide) (by decide)

lemma logCause_ne_retry (t : String) : "log cause: " ++ t ≠ "retry_update" :=
  ne_of_data_getElem _ _ 0 'l' 'r'
    (data_getElem_append "log cause: " t 0 'l' (by decide)) (by decide) (by decide)

lemma ui_ne_logError (x t : String) : "ui_print " ++ x ≠ "log error: " ++ t :=
  ne_of_data_getElem _ _ 0 'u' 'l'
    (data_getElem_append "ui_print " x 0 'u' (by decide))
    (data_getElem_append "log error: " t 0 'l' (by decide)) (by decide)

lemma ui_ne_logCause (x t : String) : "ui_print " ++ x ≠ "log cause: " ++ t :=
  ne_of_data_getElem _ _ 0 'u' 'l'
    (data_getElem_append "ui_print " x 0 'u' (by decide))
    (data_getElem_append "log cause: " t 0 'l' (by decide)) (by decide)

lemma logCause_ne_logError (x t : String) : "log cause: " ++ x ≠ "log error: " ++ t :=
  ne_of_data_getElem _ _ 4 'c' 'e'
    (data_getElem_append "log cause: " x 4 'c' (by decide))
    (data_getElem_append "log error: " t 4 'e' (by decide)) (by decide)

lemma retry_ne_logError (t : String) : "retry_update" ≠ "log error: " ++ t :=
  ne_of_data_getElem _ _ 0 'r' 'l' (by decide)
    (data_getElem_append "log error: " t 0 'l' (by decide)) (by decide)

lemma retry_ne_ui (t : String) : "retry_update" ≠ "ui_print " ++ t :=
  ne_of_data_getElem _ _ 0 'r' 'u' (by decide)
    (data_getElem_append "ui_print " t 0 'u' (by decide)) (by decide)

lemma logError_ne_ui (x t : String) : "log error: " ++ x ≠ "ui_print " ++ t :=
  ne_of_data_getElem _ _ 0 'l' 'u'
    (data_getElem_append "log error: " x 0 'l' (by decide))
    (data_getElem_append "ui_print " t 0 'u' (by decide)) (by decide)

lemma logCause_ne_ui (x t : String) : "log cause: " ++ x ≠ "ui_print " ++ t :=
  ne_of_data_getElem _ _ 0 'l' 'u'
    (data_getElem_append "log cause: " x 0 'l' (by decide))
    (data_getElem_append "ui_print " t 0 'u' (by decide)) (by decide)

lemma succ_ne_logCause (r t : String) :
    "ui_print script succeeded: result was [" ++ r ++ "]" ≠ "log cause: " ++ t :=
  ne_of_data_getElem _ _ 0 'u' 'l'
    (data_getElem_append _ "]" 0 'u'
      (data_getElem_append "ui_print script succeeded: result was [" r 0 'u' (by decide)))
    (data_getElem_append "log cause: " t 0 'l' (by decide)) (by decide)

/-! ## Helper lemmas: the report loop and the error-code fold -/

lemma reportLoop_eq (lines : List (List Char)) :
    ∀ (acc : List String) (code : Int),
      reportLoop lines acc code =
        (acc ++ lines.map (fun l => "ui_print " ++ String.mk l),
         lines.foldl stepErrorCode code) := by
  induction lines with
  | nil => intro acc code; simp [reportLoop]
  | cons l rest ih => intro acc code; simp [reportLoop, ih]

lemma foldl_scanUpd (lines : List (List Char)) :
    ∀ (a : Option Int),
      lines.foldl scanUpd a =
        match lines.foldl scanUpd none with
        | some v => some v
        | none => a := by
  induction lines with
  | nil => intro a; simp
  | cons l rest ih =>
    intro a
    rw [List.foldl_cons, List.foldl_cons, ih (scanUpd a l), ih (scanUpd none l)]
    cases h : rest.foldl scanUpd none with
    | some v => simp
    | none =>
      cases hs : sscanfE l with
      | some w => simp [scanUpd, hs]
      | none => simp [scanUpd, hs]

lemma lastScan_eq_foldl (lines : List (List Char)) :
    lastScan lines = lines.foldl scanUpd none := by
  have h : ∀ (a : Option Int),
      lines.foldl
        (fun acc l =>
          match sscanfE l with
          | some v => some v
          | none => acc) a = lines.foldl scanUpd a := by
    intro a
    induction lines generalizing a with
    | nil => simp
    | cons l rest ih => rw [List.foldl_cons, List.foldl_cons, ih]; rfl
  exact h none

lemma foldl_stepErrorCode (lines : List (List Char)) :
    ∀ (c : Int), lines.foldl stepErrorCode c = (lastScan lines).getD c := by
  induction lines with
  | nil => intro c; simp [lastScan]
  | cons l rest ih =>
    intro c
    rw [List.foldl_cons, ih, lastScan_eq_foldl rest, lastScan_eq_foldl (l :: rest),
      List.foldl_cons, foldl_scanUpd rest (scanUpd none l)]
    cases h : rest.foldl scanUpd none with
    | some v => simp
    | none =>
      cases hs : sscanfE l with
      | some w => simp [scanUpd, hs, stepErrorCode]
      | none => simp [scanUpd, hs, stepErrorCode]

/-! ## Helper lemmas: the shape of a failure report -/

lemma pARE_fst (s : State) :
    (parseAndReportErrorCode s).1 =
      uiSection s ++ ("log error: " ++ toString (reportedCode s)) ::
        causeLines s.cause_code := by
  unfold parseAndReportErrorCode uiSection reportedCode preCode
  by_cases h : s.errmsg = "" <;> simp [h, reportLoop_eq]

lemma pARE_snd (s : State) :
    (parseAndReportErrorCode s).2 = reportedCode s := by
  unfold parseAndReportErrorCode reportedCode preCode
  by_cases h : s.errmsg = "" <;> simp [h, reportLoop_eq]

lemma uiSection_shape (s : State) :
    ∀ l ∈ uiSection s, ∃ t, l = "ui_print " ++ t := by
  unfold uiSection
  by_cases h : s.errmsg = ""
  · simp only [h, if_true, List.mem_singleton]
    rintro l rfl
    exact ⟨"script aborted (no error message)", by decide⟩
  · simp only [h, if_false, List.mem_map]
    rintro l ⟨cl, _, rfl⟩
    exact ⟨String.mk cl, rfl⟩

lemma kPatch_ne_kNoCause : kPatchApplicationFailure ≠ kNoCause := by
  unfold kPatchApplicationFailure kNoCause; decide

lemma kEio_ne_kNoCause : kEioFailure ≠ kNoCause := by
  unfold kEioFailure kNoCause; decide

lemma kSEF_ne_kNoError : kScriptExecutionFailure ≠ kNoError := by
  unfold kScriptExecutionFailure kNoError; decide

lemma causeLines_cases (cc : Int) :
    causeLines cc = [] ∨ causeLines cc = ["log cause: " ++ toString cc] ∨
      causeLines cc = ["log cause: " ++ toString cc, "retry_update"] := by
  unfold causeLines
  by_cases h : cc ≠ kNoCause
  · by_cases h1 : cc = kPatchApplicationFailure <;>
      by_cases h2 : cc = kEioFailure <;>
        simp [h, h1, h2, kPatch_ne_kNoCause, kEio_ne_kNoCause]
  · simp [h]

lemma count_retry_causeLines (cc : Int) :
    (causeLines cc).count "retry_update" =
      if cc = kPatchApplicationFailure ∨ cc = kEioFailure then 1 else 0 := by
  unfold causeLines
  by_cases h1 : cc = kPatchApplicationFailure
  · have : cc ≠ kNoCause := h1 ▸ kPatch_ne_kNoCause
    simp [this, h1, kPatch_ne_kNoCause, List.count_cons,
      logCause_ne_retry (toString kPatchApplicationFailure)]
  · by_cases h2 : cc = kEioFailure
    · have : cc ≠ kNoCause := h2 ▸ kEio_ne_kNoCause
      simp [this, h1, h2, kEio_ne_kNoCause, List.count_cons,
        logCause_ne_retry (toString kEioFailure)]
    · by_cases h : cc ≠ kNoCause <;>
        simp [h, h1, h2, List.count_cons, logCause_ne_retry (toString cc)]

lemma count_retry_uiSection (s : State) :
    (uiSection s).count "retry_update" = 0 := by
  rw [List.count_eq_zero]
  intro hmem
  rcases uiSection_shape s _ hmem with ⟨t, ht⟩
  exact ui_ne_retry t ht.symm

lemma sanity_splitLines : splitLines "a\nb\n".data = ["a".data, "b".data, ("" : String).data] := by
  decide

lemma sanity_sscanfE :
    sscanfE "E30: x".data = some 30 ∧ sscanfE "E30".data = some 30 ∧
      sscanfE "EIO: x".data = none := by
  decide

lemma lastScan_eq_none (lines : List (List Char))
    (h : ∀ l ∈ lines, sscanfE l = none) : lastScan lines = none := by
  induction lines with
  | nil => rfl
  | cons l rest ih =>
    have h1 : sscanfE l = none := h l (List.mem_cons_self l rest)
    have h2 : rest.foldl scanUpd none = none := by
      rw [← lastScan_eq_foldl]
      exact ih (fun x hx => h x (List.mem_cons_of_mem _ hx))
    rw [lastScan_eq_foldl, List.foldl_cons, foldl_scanUpd, h2]
    simp [scanUpd, h1]

lemma uiPrintLoop_eq (lines : List (List Char)) :
    uiPrintLoop lines =
      (lines.filter (fun l => !l.isEmpty)).map (fun l => "ui_print " ++ String.mk l) := by
  induction lines with
  | nil => rfl
  | cons l rest ih =>
    by_cases h : l = [] <;>
      simp [uiPrintLoop, h, ih, List.filter_cons]

lemma runUpdate_success (error errorCount : Int) (eval : State → Bool × String × State)
    (is_retry : Bool) (result : String) (st : State)
    (he : error = 0) (hec : errorCount ≤ 0)
    (hev : eval (initState is_retry) = (true, result, st)) :
    runUpdate error errorCount eval is_retry =
      { ok := true
        pipeLines :=
          ("ui_print script succeeded: result was [" ++ result ++ "]") ::
            (if result = "" ∧ st.cause_code ≠ kNoCause then
              ["log cause: " ++ toString st.cause_code]
            else [])
        evalInvoked := true } := by
  have hcond : ¬(error ≠ 0 ∨ errorCount > 0) := by
    subst he; simp; omega
  unfold runUpdate
  rw [if_neg hcond, hev]
  rfl

/-! ## The claims -/


/-- Claim C2: for every failed evaluation, a `retry_update` line is written
to the command channel if and only if the final `causeCode` equals the
patch-application-failure cause or the EIO cause; for every other cause
value, including no cause, no `retry_update` line is written.  (Stated as an
exact count: the report contains the `retry_update` line exactly once when
the cause is retry-eligible, and zero times otherwise.) -/
theorem retry_line_iff_retry_eligible_cause (s : State) :
    (parseAndReportErrorCode s).1.count "retry_update" =
      if s.cause_code = kPatchApplicationFailure ∨ s.cause_code = kEioFailure
      then 1 else 0 := by
  rw [pARE_fst, List.count_append, count_retry_uiSection, List.count_cons,
    count_retry_causeLines]
  simp [logError_ne_retry (toString (reportedCode s))]

/-- Claim C5: for every script whose parse reports a nonzero parse error or
a positive error count, `run()` returns false without ever invoking
evaluation (no ExecutionState is constructed and no pipe line is
written). -/
theorem parse_failure_returns_false_without_eval
    (error errorCount : Int) (eval : State → Bool × String × State)
    (is_retry : Bool) (h : error ≠ 0 ∨ 0 < errorCount) :
    runUpdate error errorCount eval is_retry =
      { ok := false, pipeLines := [], evalInvoked := false } := by
  unfold runUpdate
  rw [if_pos h]

/-- Witness for C5: a parse with 2 reported errors returns false with no
evaluation. -/
theorem parse_failure_returns_false_without_eval_witness :
    runUpdate 0 2 (fun st => (true, "", st)) false =
      { ok := false, pipeLines := [], evalInvoked := false } :=
  parse_failure_returns_false_without_eval 0 2 (fun st => (true, "", st)) false
    (Or.inr (by decide))

/-- Claim C7: `UiPrint` splits its message on newline boundaries and writes
exactly the non-empty segments, each as one `ui_print <segment>` line; empty
segments (including the trailing empty segment of a message ending in a
newline) produce no output, so `"a\nb\n"` yields exactly the two lines
`ui_print a` and `ui_print b`. -/
theorem uiPrint_drops_empty_segments :
    uiPrint "a\nb\n" = ["ui_print a", "ui_print b"] ∧
    ∀ (m : String),
      uiPrint m =
        ((splitLines m.data).filter (fun l => !l.isEmpty)).map
          (fun l => "ui_print " ++ String.mk l) := by
  refine ⟨by decide, ?_⟩
  intro m
  unfold uiPrint
  exact uiPrintLoop_eq (splitLines m.data)

/-- Claim C10: for every failed evaluation, the command-channel lines of the
failure report appear in this fixed order: first all `ui_print` lines
(derived from the abort message, or the single generic abort line), then
exactly one `log error:` line, then at most one `log cause:` line, then at
most one `retry_update` line; `retry_update` never precedes its
`log cause:` line. -/
theorem failure_report_line_order (s : State) :
    ∃ ui tail,
      (parseAndReportErrorCode s).1 =
        ui ++ ("log error: " ++ toString (parseAndReportErrorCode s).2) :: tail ∧
      (∀ l ∈ ui, ∃ t, l = "ui_print " ++ t) ∧
      (∀ l ∈ ui, ∀ t, l ≠ "log error: " ++ t) ∧
      (∀ l ∈ tail, ∀ t, l ≠ "log error: " ++ t) ∧
      (tail = [] ∨ tail = ["log cause: " ++ toString s.cause_code] ∨
        tail = ["log cause: " ++ toString s.cause_code, "retry_update"]) := by
  refine ⟨uiSection s, causeLines s.cause_code, ?_, uiSection_shape s, ?_, ?_,
    causeLines_cases s.cause_code⟩
  · rw [pARE_fst, pARE_snd]
  · intro l hl t
    rcases uiSection_shape s l hl with ⟨x, rfl⟩
    exact ui_ne_logError x t
  · intro l hl t
    rcases causeLines_cases s.cause_code with hc | hc | hc <;> rw [hc] at hl
    · simp at hl
    · rw [List.mem_singleton] at hl
      subst hl
      exact logCause_ne_logError (toString s.cause_code) t
    · simp only [List.mem_cons, List.mem_singleton, List.not_mem_nil, or_false] at hl
      rcases hl with rfl | rfl
      · exact logCause_ne_logError (toString s.cause_code) t
      · exact retry_ne_logError t

/-- Counterexample to claim C1 as stated: in the abort message
`"E30: a\nE99"` the only line matching the full pattern `E<digits>:` is
`E30: a` (value 30), yet the reported error code is 99 — the later line
`E99` has no colon, so it does not match the full pattern, but the `%d`
conversion of `sscanf` is assigned before the missing `": "` of the format
is checked, so the line still overwrites the code. -/
theorem last_full_marker_not_reported_cex :
    (parseAndReportErrorCode
        { is_retry := false, errmsg := "E30: a\nE99", error_code := kNoError,
          cause_code := kNoCause }).2 = 99 ∧
    specMarkerValue "E30: a".data = some 30 ∧
    specMarkerValue "E99".data = none ∧
    (99 : Int) ≠ 30 := by
  refine ⟨by decide, by decide, by decide, by decide⟩

/-- Claim C1, amended: for every failed evaluation whose errorMessage
contains at least one line on which the embedded error-code scan
(`sscanf("E%d: ")`) is assigned a value — the literal `E` followed by a
parsable decimal integer; the trailing colon is NOT required — the error
code reported on the `log error:` line equals the value from the last such
line (earlier values are overwritten by later ones), provided that value is
not `None` (a scanned 0 is replaced by the generic fallback). -/
theorem reported_code_is_last_scanned (s : State) (v : Int)
    (h1 : lastScan (splitLines s.errmsg.data) = some v)
    (h2 : v ≠ kNoError) :
    (parseAndReportErrorCode s).2 = v ∧
    ("log error: " ++ toString v) ∈ (parseAndReportErrorCode s).1 := by
  have hne : s.errmsg ≠ "" := by
    intro h
    rw [h] at h1
    rw [show lastScan (splitLines ("" : String).data) = none from by decide] at h1
    exact Option.noConfusion h1
  have hpre : preCode s = v := by
    unfold preCode
    rw [if_neg hne, foldl_stepErrorCode, h1]
    rfl
  have hrep : reportedCode s = v := by
    unfold reportedCode
    rw [hpre, if_neg h2]
  refine ⟨by rw [pARE_snd, hrep], ?_⟩
  rw [pARE_fst, hrep]
  exact List.mem_append_right _ (List.mem_cons_self _ _)

/-- Witness for C1: on `"E30: a\nE99"` (with a prior code 7) the last
scanned value is 99 and the reported code is 99. -/
theorem reported_code_is_last_scanned_witness :
    lastScan (splitLines ("E30: a\nE99" : String).data) = some 99 ∧
    (99 : Int) ≠ kNoError ∧
    (parseAndReportErrorCode
        { is_retry := false, errmsg := "E30: a\nE99", error_code := 7,
          cause_code := kNoCause }).2 = 99 ∧
    ("log error: " ++ toString (99 : Int)) ∈
      (parseAndReportErrorCode
        { is_retry := false, errmsg := "E30: a\nE99", error_code := 7,
          cause_code := kNoCause }).1 := by
  have h := reported_code_is_last_scanned
    { is_retry := false, errmsg := "E30: a\nE99", error_code := 7,
      cause_code := kNoCause } 99 (by decide) (by decide)
  exact ⟨by decide, by decide, h.1, h.2⟩

/-- Counterexample to claim C3 as stated: the line `E30` begins with the
marker character `E` but does not match the full pattern `E<digits>:` (no
colon); the claim says such a line leaves the error code unchanged (here:
unset, so that the generic fallback would be reported), yet the code
reports 30 — `sscanf` assigns the `%d` conversion before the format
mismatch on the missing colon is noticed. -/
theorem colonless_marker_overwrites_cex :
    (parseAndReportErrorCode
        { is_retry := false, errmsg := "E30", error_code := kNoError,
          cause_code := kNoCause }).2 = 30 ∧
    specMarkerValue "E30".data = none ∧
    (30 : Int) ≠ kScriptExecutionFailure := by
  refine ⟨by decide, by decide, by decide⟩

/-- Claim C3, amended: for every failed evaluation with non-empty
errorMessage, a line overwrites the previously held error code exactly when
the embedded scan (`E` followed by a parsable decimal integer — the colon
is not required) is assigned a value; a line on which the scan fails (for
example `EIO: ...`) leaves the prior code unchanged and only produces a
diagnostic warning.  In particular, when every line fails the scan, the
reported code is the prior code (subject to the generic fallback), and in
general the reported code is the last scanned value, defaulting to the
prior code. -/
theorem scan_determines_error_code (s : State) (h : s.errmsg ≠ "") :
    ((∀ l ∈ splitLines s.errmsg.data, sscanfE l = none) →
      (parseAndReportErrorCode s).2 =
        if s.error_code = kNoError then kScriptExecutionFailure
        else s.error_code) ∧
    (parseAndReportErrorCode s).2 =
      (if (lastScan (splitLines s.errmsg.data)).getD s.error_code = kNoError
       then kScriptExecutionFailure
       else (lastScan (splitLines s.errmsg.data)).getD s.error_code) := by
  have hchar : (parseAndReportErrorCode s).2 =
      (if (lastScan (splitLines s.errmsg.data)).getD s.error_code = kNoError
       then kScriptExecutionFailure
       else (lastScan (splitLines s.errmsg.data)).getD s.error_code) := by
    rw [pARE_snd]
    unfold reportedCode preCode
    rw [if_neg h, foldl_stepErrorCode]
  refine ⟨?_, hchar⟩
  intro hall
  rw [hchar, lastScan_eq_none _ hall]
  rfl

/-- Witness for C3: on the single line `EIO: read failed` the scan fails
and the prior code 7 is reported unchanged. -/
theorem scan_determines_error_code_witness :
    ((∀ l ∈ splitLines ("EIO: read failed" : String).data, sscanfE l = none) →
      (parseAndReportErrorCode
          { is_retry := false, errmsg := "EIO: read failed", error_code := 7,
            cause_code := kNoCause }).2 =
        if (7 : Int) = kNoError then kScriptExecutionFailure else 7) ∧
    (parseAndReportErrorCode
        { is_retry := false, errmsg := "EIO: read failed", error_code := 7,
          cause_code := kNoCause }).2 =
      (if (lastScan (splitLines ("EIO: read failed" : String).data)).getD 7 = kNoError
       then kScriptExecutionFailure
       else (lastScan (splitLines ("EIO: read failed" : String).data)).getD 7) :=
  scan_determines_error_code
    { is_retry := false, errmsg := "EIO: read failed", error_code := 7,
      cause_code := kNoCause } (by decide)

/-- Counterexample to claim C4 as stated: a failed evaluation with empty
errorMessage but with an error code already set to 5 by the evaluation
engine reports 5, not the generic script-execution-failure fallback — the
fallback is applied only when the code is still `None`. -/
theorem preset_code_kept_on_empty_errmsg_cex :
    (parseAndReportErrorCode
        { is_retry := false, errmsg := "", error_code := 5,
          cause_code := kNoCause }).2 = 5 ∧
    (5 : Int) ≠ kScriptExecutionFailure := by
  refine ⟨by decide, by decide⟩

/-- Claim C4, amended: for every failed evaluation whose errorMessage is
empty, exactly one generic UI line
(`ui_print script aborted (no error message)`) is written, followed by the
`log error:` line (and the cause tail); the reported error code is the
generic script-execution-failure fallback when no error code was already
set (errorCode still `None` on entry), and the preset code otherwise; a
failed run is never reported with error code `None`. -/
theorem empty_errmsg_generic_report (s : State) (h : s.errmsg = "") :
    (parseAndReportErrorCode s).1 =
      "ui_print script aborted (no error message)" ::
        ("log error: " ++ toString (parseAndReportErrorCode s).2) ::
          causeLines s.cause_code ∧
    (s.error_code = kNoError → (parseAndReportErrorCode s).2 = kScriptExecutionFailure) ∧
    (s.error_code ≠ kNoError → (parseAndReportErrorCode s).2 = s.error_code) ∧
    (parseAndReportErrorCode s).2 ≠ kNoError := by
  refine ⟨?_, ?_, ?_, ?_⟩
  · rw [pARE_fst, pARE_snd]
    unfold uiSection
    rw [if_pos h]
    rfl
  · intro h0
    rw [pARE_snd]
    unfold reportedCode preCode
    simp [h, h0]
  · intro h0
    rw [pARE_snd]
    unfold reportedCode preCode
    simp [h, h0]
  · rw [pARE_snd]
    unfold reportedCode
    by_cases hc : preCode s = kNoError
    · rw [if_pos hc]
      exact kSEF_ne_kNoError
    · rw [if_neg hc]
      exact hc

/-- Witness for C4: the empty abort message with no preset code yields the
generic line and the fallback code. -/
theorem empty_errmsg_generic_report_witness :
    (parseAndReportErrorCode
        { is_retry := false, errmsg := "", error_code := kNoError,
          cause_code := kNoCause }).1 =
      "ui_print script aborted (no error message)" ::
        ("log error: " ++
            toString (parseAndReportErrorCode
              { is_retry := false, errmsg := "", error_code := kNoError,
                cause_code := kNoCause }).2) ::
          causeLines kNoCause ∧
    ((kNoError : Int) = kNoError →
      (parseAndReportErrorCode
          { is_retry := false, errmsg := "", error_code := kNoError,
            cause_code := kNoCause }).2 = kScriptExecutionFailure) ∧
    ((kNoError : Int) ≠ kNoError →
      (parseAndReportErrorCode
          { is_retry := false, errmsg := "", error_code := kNoError,
            cause_code := kNoCause }).2 = kNoError) ∧
    (parseAndReportErrorCode
        { is_retry := false, errmsg := "", error_code := kNoError,
          cause_code := kNoCause }).2 ≠ kNoError :=
  empty_errmsg_generic_report
    { is_retry := false, errmsg := "", error_code := kNoError,
      cause_code := kNoCause } rfl

/-- Claim C6: for every evaluation that succeeds with an empty resultString
and a causeCode different from `None`, a `log cause:` line carrying that
cause code is written to the command channel and `run()` still returns
true; when the result string is non-empty or the cause code is `None`, no
`log cause:` line is written on the success path. -/
theorem success_empty_result_logs_cause
    (error errorCount : Int) (eval : State → Bool × String × State)
    (is_retry : Bool) (result : String) (st : State)
    (he : error = 0) (hec : errorCount ≤ 0)
    (hev : eval (initState is_retry) = (true, result, st)) :
    (runUpdate error errorCount eval is_retry).ok = true ∧
    (runUpdate error errorCount eval is_retry).pipeLines =
      ("ui_print script succeeded: result was [" ++ result ++ "]") ::
        (if result = "" ∧ st.cause_code ≠ kNoCause then
          ["log cause: " ++ toString st.cause_code]
        else []) ∧
    ((∃ l ∈ (runUpdate error errorCount eval is_retry).pipeLines,
        ∃ t, l = "log cause: " ++ t) ↔
      (result = "" ∧ st.cause_code ≠ kNoCause)) := by
  have hrun := runUpdate_success error errorCount eval is_retry result st he hec hev
  rw [hrun]
  refine ⟨rfl, rfl, ?_⟩
  by_cases hc : result = "" ∧ st.cause_code ≠ kNoCause
  · rw [if_pos hc]
    constructor
    · intro _
      exact hc
    · intro _
      exact ⟨"log cause: " ++ toString st.cause_code, by simp,
        toString st.cause_code, rfl⟩
  · rw [if_neg hc]
    constructor
    · rintro ⟨l, hl, t, ht⟩
      rw [List.mem_singleton] at hl
      rw [hl] at ht
      exact absurd ht (succ_ne_logCause result t)
    · intro hcc
      exact absurd hcc hc

/-- Witness for C6: a successful evaluation with empty result and the
patch-failure cause emits a `log cause:` line and returns true. -/
theorem success_empty_result_logs_cause_witness :
    (runUpdate 0 0
        (fun _ => (true, "",
          { is_retry := false, errmsg := "", error_code := kNoError,
            cause_code := kPatchApplicationFailure })) false).ok = true ∧
    (∃ l ∈ (runUpdate 0 0
        (fun _ => (true, "",
          { is_retry := false, errmsg := "", error_code := kNoError,
            cause_code := kPatchApplicationFailure })) false).pipeLines,
      ∃ t, l = "log cause: " ++ t) := by
  have h := success_empty_result_logs_cause 0 0
    (fun _ => (true, "",
      { is_retry := false, errmsg := "", error_code := kNoError,
        cause_code := kPatchApplicationFailure })) false ""
    { is_retry := false, errmsg := "", error_code := kNoError,
      cause_code := kPatchApplicationFailure }
    rfl (by decide) rfl
  exact ⟨h.1, h.2.2.mpr ⟨rfl, by decide⟩⟩

/-- Counterexample to claim C8 as stated: the abort message `"a\n"` splits
into the segments `a` and `` (empty); the claim says only the non-empty
segments are forwarded, yet the report contains a `ui_print ` line for the
empty trailing segment — the loop in `ParseAndReportErrorCode` forwards
every segment unconditionally (unlike `UiPrint`). -/
theorem empty_segment_forwarded_cex :
    (parseAndReportErrorCode
        { is_retry := false, errmsg := "a\n", error_code := kNoError,
          cause_code := kNoCause }).1 =
      ["ui_print a", "ui_print ", "log error: 25"] ∧
    (["ui_print a", "ui_print ", "log error: 25"] : List String) ≠
      ["ui_print a", "log error: 25"] := by
  refine ⟨by decide, by decide⟩

/-- Claim C8, amended: for every failed evaluation with a non-empty
errorMessage, the Classifier splits the message on newline boundaries and
forwards EVERY resulting segment — empty segments included (such as the
trailing segment of a message ending in a newline) — as a `ui_print` line
over the command channel, in order, before the log lines. -/
theorem errmsg_all_lines_forwarded (s : State) (h : s.errmsg ≠ "") :
    ∃ tail,
      (parseAndReportErrorCode s).1 =
        (splitLines s.errmsg.data).map (fun l => "ui_print " ++ String.mk l) ++ tail ∧
      ∀ l ∈ tail, ∀ t, l ≠ "ui_print " ++ t := by
  refine ⟨("log error: " ++ toString (reportedCode s)) :: causeLines s.cause_code, ?_, ?_⟩
  · rw [pARE_fst]
    unfold uiSection
    rw [if_neg h]
  · intro l hl t
    rw [List.mem_cons] at hl
    rcases hl with rfl | hl
    · exact logError_ne_ui (toString (reportedCode s)) t
    · rcases causeLines_cases s.cause_code with hc | hc | hc <;> rw [hc] at hl
      · simp at hl
      · rw [List.mem_singleton] at hl
        subst hl
        exact logCause_ne_ui (toString s.cause_code) t
      · simp only [List.mem_cons, List.mem_singleton, List.not_mem_nil, or_false] at hl
        rcases hl with rfl | rfl
        · exact logCause_ne_ui (toString s.cause_code) t
        · exact retry_ne_ui t

/-- Witness for C8: the abort message `"a\n"` is forwarded as the two
`ui_print` lines `ui_print a` and `ui_print ` (empty payload). -/
theorem errmsg_all_lines_forwarded_witness :
    ∃ tail,
      (parseAndReportErrorCode
          { is_retry := false, errmsg := "a\n", error_code := 7,
            cause_code := kNoCause }).1 =
        (splitLines ("a\n" : String).data).map
          (fun l => "ui_print " ++ String.mk l) ++ tail ∧
      ∀ l ∈ tail, ∀ t, l ≠ "ui_print " ++ t :=
  errmsg_all_lines_forwarded
    { is_retry := false, errmsg := "a\n", error_code := 7,
      cause_code := kNoCause } (by decide)

/-- Counterexample to claim C9 as stated: a successful evaluation whose
result string is `" x "` produces the success line
`ui_print script succeeded: result was [ x ]` — the result is embedded
verbatim; the line built from the trimmed result (`[x]`) is NOT what is
written, so no trimming takes place. -/
theorem result_not_trimmed_cex :
    (runUpdate 0 0 (fun st => (true, " x ", st)) false).pipeLines =
      ["ui_print script succeeded: result was [ x ]"] ∧
    specTrim " x " = "x" ∧
    (["ui_print script succeeded: result was [ x ]"] : List String) ≠
      ["ui_print script succeeded: result was [" ++ specTrim " x " ++ "]"] := by
  refine ⟨by decide, by decide, by decide⟩

/-- Claim C9, amended: for every evaluation that succeeds, `run()` writes a
success line over the command channel containing the result string
verbatim (no whitespace is removed) as its first pipe line, before
returning true. -/
theorem success_line_has_verbatim_result
    (error errorCount : Int) (eval : State → Bool × String × State)
    (is_retry : Bool) (result : String) (st : State)
    (he : error = 0) (hec : errorCount ≤ 0)
    (hev : eval (initState is_retry) = (true, result, st)) :
    (runUpdate error errorCount eval is_retry).ok = true ∧
    (runUpdate error errorCount eval is_retry).pipeLines.head? =
      some ("ui_print script succeeded: result was [" ++ result ++ "]") := by
  have hrun := runUpdate_success error errorCount eval is_retry result st he hec hev
  rw [hrun]
  exact ⟨rfl, rfl⟩

/-- Witness for C9: a successful evaluation with result `ok` writes the
success line embedding `ok`. -/
theorem success_line_has_verbatim_result_witness :
    (runUpdate 0 0 (fun st => (true, "ok", st)) false).ok = true ∧
    (runUpdate 0 0 (fun st => (true, "ok", st)) false).pipeLines.head? =
      some ("ui_print script succeeded: result was [" ++ "ok" ++ "]") :=
  success_line_has_verbatim_result 0 0 (fun st => (true, "ok", st)) false "ok"
    (initState false) rfl (by decide) rfl
